import Mathlib

/-!
# Constrained-record validation: space station, alien contact, space mission

A shallow embedding of the three record types of the repository
(`src/ex0/space_station.py`, `src/ex1/alien_contact.py`,
`src/ex2/space_crew.py`) together with their two-phase validation
pipeline: field-level coercion and bounds checking with error
aggregation in declared field order, then short-circuited cross-field
invariant checks.  The per-field constraints and the cross-field
invariant guard clauses are transcribed from the source files; the
generic pipeline itself is provided there by the pydantic library,
which is not part of src/, and is therefore modelled from the spec.
-/

namespace Spec2Proof

/-- An error entry of a validation report: a (field path, message) pair. -/
abbrev Err := String × String

/-- Modelled from the spec: the Validation Report — either a fully typed
record instance or an ordered list of path-qualified errors.  The report
shape belongs to the validation engine (the pydantic library), which is
not part of src/. -/
inductive Report (α : Type) where
  | ok (value : α)
  | errors (errs : List Err)
  deriving DecidableEq, Repr

/-- Modelled from the spec: a raw input value supplied by the caller —
a string, an integer, a float (modelled as a rational), a boolean, or
an already-structured timestamp. -/
inductive RawValue where
  | str (s : String)
  | int (n : Int)
  | float (q : Rat)
  | bool (b : Bool)
  | timestamp (t : Int)
  deriving DecidableEq, Repr

/-- The error list of a single-error field result. -/
def errsOf {α : Type} : Except Err α → List Err
  | Except.ok _ => []
  | Except.error e => [e]

/-- The error list of a multi-error field result (nested collections). -/
def errsOfL {α : Type} : Except (List Err) α → List Err
  | Except.ok _ => []
  | Except.error es => es

/-- Whether a field result failed. -/
def isBad {ε α : Type} : Except ε α → Bool
  | Except.ok _ => false
  | Except.error _ => true

/-- The value of a successful field result. -/
def okOf {ε α : Type} : Except ε α → Option α
  | Except.ok a => some a
  | Except.error _ => none

/-- Decidable equality of field results, used to evaluate the concrete
example records. -/
instance exceptDecEq {ε α : Type} [DecidableEq ε] [DecidableEq α] :
    DecidableEq (Except ε α) := fun a b =>
  match a, b with
  | Except.ok x, Except.ok y =>
    if h : x = y then Decidable.isTrue (congrArg Except.ok h)
    else Decidable.isFalse (fun hc => h (Except.ok.inj hc))
  | Except.error x, Except.error y =>
    if h : x = y then Decidable.isTrue (congrArg Except.error h)
    else Decidable.isFalse (fun hc => h (Except.error.inj hc))
  | Except.ok _, Except.error _ => Decidable.isFalse (fun hc => Except.noConfusion hc)
  | Except.error _, Except.ok _ => Decidable.isFalse (fun hc => Except.noConfusion hc)

/-- Modelled from the spec: coercion of a raw value to a string. -/
def coerceStr : RawValue → Option String
  | RawValue.str s => some s
  | _ => none

/-- Modelled from the spec: coercion of a raw value to an integer. -/
def coerceInt : RawValue → Option Int
  | RawValue.int n => some n
  | _ => none

/-- Modelled from the spec: coercion of a raw value to a float
(floats are modelled as rationals). -/
def coerceFloat : RawValue → Option Rat
  | RawValue.float q => some q
  | _ => none

/-- Modelled from the spec: coercion of a raw value to a boolean. -/
def coerceBool : RawValue → Option Bool
  | RawValue.bool b => some b
  | _ => none

/-- Modelled from the spec: coercion of a raw value to a structured
date-time (modelled as an integer timestamp). -/
def coerceTimestamp : RawValue → Option Int
  | RawValue.timestamp t => some t
  | _ => none

/-- Modelled from the spec: coercion to an optional string, for
nullable text fields whose default is the absent value. -/
def coerceOptStr (v : RawValue) : Option (Option String) :=
  (coerceStr v).map some

/-- Modelled from the spec: the Field Validator.  A missing value is an
error for a required field and is replaced by the default (itself
re-validated) for an optional one; a present value is coerced to the
declared kind (error "cannot interpret value as <kind>" on failure) and
then bounds-checked (error "value out of range"). -/
def checkField {α : Type} (path kind : String) (coerce : RawValue → Option α)
    (inBounds : α → Bool) (dflt : Option α) (v : Option RawValue) : Except Err α :=
  match v with
  | none =>
    match dflt with
    | none => Except.error (path, "field is required")
    | some d =>
      if inBounds d then Except.ok d else Except.error (path, "value out of range")
  | some rv =>
    match coerce rv with
    | none => Except.error (path, "cannot interpret value as " ++ kind)
    | some a =>
      if inBounds a then Except.ok a else Except.error (path, "value out of range")

/-- Modelled from the spec: lift a single-field result into the
aggregated, multi-error form. -/
def one {α : Type} : Except Err α → Except (List Err) α
  | Except.ok a => Except.ok a
  | Except.error e => Except.error [e]

/-- Modelled from the spec: error-aggregating application.  All field
errors are collected, left to right in field-declaration order; the
field phase never short-circuits. -/
def vap {α β : Type} : Except (List Err) (α → β) → Except (List Err) α → Except (List Err) β
  | Except.ok f, Except.ok a => Except.ok (f a)
  | Except.ok _, Except.error es => Except.error es
  | Except.error es, Except.ok _ => Except.error es
  | Except.error es, Except.error es2 => Except.error (es ++ es2)

/-- Python's `str.startswith`, modelled on the underlying character
lists (structurally recursive so that it evaluates by kernel reduction). -/
def strStartsWith (s pre : String) : Bool := pre.data.isPrefixOf s.data

/-- Modelled from the spec: cross-field invariants run in declared
order as sequential guard clauses; the first failing invariant ends
validation with its message and later invariants are not evaluated.
This mirrors the sequential raise statements of the model validators
in src/ex1 and src/ex2. -/
def runInvariants {α : Type} (invs : List ((α → Bool) × String)) (a : α) : Except String α :=
  match invs with
  | [] => Except.ok a
  | pm :: rest => if pm.1 a then runInvariants rest a else Except.error pm.2

/-- The number of invariants of `invs` whose predicate fails on `a`. -/
def countFailing {α : Type} (invs : List ((α → Bool) × String)) (a : α) : Nat :=
  (invs.filter fun pm => !pm.1 a).length

/-- The message of the first invariant of `invs` (in declared order)
whose predicate fails on `a`, if any. -/
def firstFailMsg {α : Type} (invs : List ((α → Bool) × String)) (a : α) : Option String :=
  match invs with
  | [] => none
  | pm :: rest => if pm.1 a then firstFailMsg rest a else some pm.2

/-! ## Exercise 0: `SpaceStation` (src/ex0/space_station.py) -/

/-- The `SpaceStation` record of src/ex0/space_station.py. -/
structure SpaceStation where
  station_id : String
  name : String
  crew_size : Int
  power_level : Rat
  oxygen_level : Rat
  last_maintenance : Int
  is_operational : Bool
  notes : Option String
  deriving DecidableEq, Repr

/-- Modelled from the spec: raw keyword input for a `SpaceStation`
(the raw-mapping side of validation is engine code, not in src/). -/
structure RawStation where
  station_id : Option RawValue := none
  name : Option RawValue := none
  crew_size : Option RawValue := none
  power_level : Option RawValue := none
  oxygen_level : Option RawValue := none
  last_maintenance : Option RawValue := none
  is_operational : Option RawValue := none
  notes : Option RawValue := none
  deriving DecidableEq, Repr

/-- Field validator for `station_id`: string, min_length 3, max_length 10. -/
def vStationId (r : RawStation) : Except Err String :=
  checkField "station_id" "string" coerceStr
    (fun s => decide (3 ≤ s.length ∧ s.length ≤ 10)) none r.station_id

/-- Field validator for `name`: string, min_length 1, max_length 50. -/
def vStationName (r : RawStation) : Except Err String :=
  checkField "name" "string" coerceStr
    (fun s => decide (1 ≤ s.length ∧ s.length ≤ 50)) none r.name

/-- Field validator for `crew_size`: integer, ge 1, le 20. -/
def vCrewSize (r : RawStation) : Except Err Int :=
  checkField "crew_size" "integer" coerceInt
    (fun n => decide (1 ≤ n ∧ n ≤ 20)) none r.crew_size

/-- Field validator for `power_level`: float, ge 0.0, le 100.0. -/
def vPowerLevel (r : RawStation) : Except Err Rat :=
  checkField "power_level" "float" coerceFloat
    (fun q => decide (0 ≤ q ∧ q ≤ 100)) none r.power_level

/-- Field validator for `oxygen_level`: float, ge 0.0, le 100.0. -/
def vOxygenLevel (r : RawStation) : Except Err Rat :=
  checkField "oxygen_level" "float" coerceFloat
    (fun q => decide (0 ≤ q ∧ q ≤ 100)) none r.oxygen_level

/-- Field validator for `last_maintenance`: timestamp, required, no bounds. -/
def vLastMaintenance (r : RawStation) : Except Err Int :=
  checkField "last_maintenance" "timestamp" coerceTimestamp
    (fun _ => true) none r.last_maintenance

/-- Field validator for `is_operational`: boolean, optional with default `True`. -/
def vIsOperational (r : RawStation) : Except Err Bool :=
  checkField "is_operational" "boolean" coerceBool
    (fun _ => true) (some true) r.is_operational

/-- Field validator for `notes`: optional string, max_length 200, default absent. -/
def vStationNotes (r : RawStation) : Except Err (Option String) :=
  checkField "notes" "string" coerceOptStr
    (fun o => match o with
      | none => true
      | some s => decide (s.length ≤ 200)) (some none) r.notes

/-- All field-level errors of a raw station, in declared field order. -/
def stationFieldErrors (r : RawStation) : List Err :=
  errsOf (vStationId r) ++ errsOf (vStationName r) ++ errsOf (vCrewSize r) ++
  errsOf (vPowerLevel r) ++ errsOf (vOxygenLevel r) ++ errsOf (vLastMaintenance r) ++
  errsOf (vIsOperational r) ++ errsOf (vStationNotes r)

/-- The number of station fields whose field-level validation fails. -/
def numBadStationFields (r : RawStation) : Nat :=
  (isBad (vStationId r)).toNat + (isBad (vStationName r)).toNat +
  (isBad (vCrewSize r)).toNat + (isBad (vPowerLevel r)).toNat +
  (isBad (vOxygenLevel r)).toNat + (isBad (vLastMaintenance r)).toNat +
  (isBad (vIsOperational r)).toNat + (isBad (vStationNotes r)).toNat

/-- Modelled from the spec: the field phase of station validation —
every field is checked and all errors are aggregated in declared order. -/
def stationFields (r : RawStation) : Except (List Err) SpaceStation :=
  vap (vap (vap (vap (vap (vap (vap (vap (Except.ok SpaceStation.mk)
    (one (vStationId r))) (one (vStationName r))) (one (vCrewSize r)))
    (one (vPowerLevel r))) (one (vOxygenLevel r))) (one (vLastMaintenance r)))
    (one (vIsOperational r))) (one (vStationNotes r))

/-- Modelled from the spec: full validation of a raw station.
`SpaceStation` declares no cross-field invariants. -/
def validateStation (r : RawStation) : Report SpaceStation :=
  match stationFields r with
  | Except.ok s => Report.ok s
  | Except.error es => Report.errors es

/-! ## Exercise 1: `AlienContact` (src/ex1/alien_contact.py) -/

/-- The `ContactType` enumeration of src/ex1/alien_contact.py. -/
inductive ContactType where
  | radio
  | visual
  | physical
  | telepathic
  deriving DecidableEq, Repr

/-- Modelled from the spec: coercion of a raw value to a `ContactType`
tag; only the four declared tags are accepted. -/
def coerceContactType : RawValue → Option ContactType
  | RawValue.str "radio" => some ContactType.radio
  | RawValue.str "visual" => some ContactType.visual
  | RawValue.str "physical" => some ContactType.physical
  | RawValue.str "telepathic" => some ContactType.telepathic
  | _ => none

/-- The `AlienContact` record of src/ex1/alien_contact.py. -/
structure AlienContact where
  contact_id : String
  timestamp : Int
  location : String
  contact_type : ContactType
  signal_strength : Rat
  duration_minutes : Int
  witness_count : Int
  message_received : Option String
  is_verified : Bool
  deriving DecidableEq, Repr

/-- Modelled from the spec: raw keyword input for an `AlienContact`. -/
structure RawContact where
  contact_id : Option RawValue := none
  timestamp : Option RawValue := none
  location : Option RawValue := none
  contact_type : Option RawValue := none
  signal_strength : Option RawValue := none
  duration_minutes : Option RawValue := none
  witness_count : Option RawValue := none
  message_received : Option RawValue := none
  is_verified : Option RawValue := none
  deriving DecidableEq, Repr

/-- Field validator for `contact_id`: string, min_length 5, max_length 15. -/
def vContactId (r : RawContact) : Except Err String :=
  checkField "contact_id" "string" coerceStr
    (fun s => decide (5 ≤ s.length ∧ s.length ≤ 15)) none r.contact_id

/-- Field validator for `timestamp`: timestamp, required. -/
def vContactTimestamp (r : RawContact) : Except Err Int :=
  checkField "timestamp" "timestamp" coerceTimestamp
    (fun _ => true) none r.timestamp

/-- Field validator for `location`: string, min_length 3, max_length 100. -/
def vLocation (r : RawContact) : Except Err String :=
  checkField "location" "string" coerceStr
    (fun s => decide (3 ≤ s.length ∧ s.length ≤ 100)) none r.location

/-- Field validator for `contact_type`: enumeration, required. -/
def vContactType (r : RawContact) : Except Err ContactType :=
  checkField "contact_type" "contact type" coerceContactType
    (fun _ => true) none r.contact_type

/-- Field validator for `signal_strength`: float, ge 0.0, le 10.0. -/
def vSignalStrength (r : RawContact) : Except Err Rat :=
  checkField "signal_strength" "float" coerceFloat
    (fun q => decide (0 ≤ q ∧ q ≤ 10)) none r.signal_strength

/-- Field validator for `duration_minutes`: integer, ge 1, le 1440. -/
def vDurationMinutes (r : RawContact) : Except Err Int :=
  checkField "duration_minutes" "integer" coerceInt
    (fun n => decide (1 ≤ n ∧ n ≤ 1440)) none r.duration_minutes

/-- Field validator for `witness_count`: integer, ge 1, le 100. -/
def vWitnessCount (r : RawContact) : Except Err Int :=
  checkField "witness_count" "integer" coerceInt
    (fun n => decide (1 ≤ n ∧ n ≤ 100)) none r.witness_count

/-- Field validator for `message_received`: optional string,
max_length 500, default absent. -/
def vMessageReceived (r : RawContact) : Except Err (Option String) :=
  checkField "message_received" "string" coerceOptStr
    (fun o => match o with
      | none => true
      | some s => decide (s.length ≤ 500)) (some none) r.message_received

/-- Field validator for `is_verified`: boolean, optional with default `False`. -/
def vIsVerified (r : RawContact) : Except Err Bool :=
  checkField "is_verified" "boolean" coerceBool
    (fun _ => true) (some false) r.is_verified

/-- All field-level errors of a raw contact, in declared field order. -/
def contactFieldErrors (r : RawContact) : List Err :=
  errsOf (vContactId r) ++ errsOf (vContactTimestamp r) ++ errsOf (vLocation r) ++
  errsOf (vContactType r) ++ errsOf (vSignalStrength r) ++ errsOf (vDurationMinutes r) ++
  errsOf (vWitnessCount r) ++ errsOf (vMessageReceived r) ++ errsOf (vIsVerified r)

/-- Modelled from the spec: the field phase of contact validation —
every field is checked and all errors are aggregated in declared order. -/
def contactFields (r : RawContact) : Except (List Err) AlienContact :=
  vap (vap (vap (vap (vap (vap (vap (vap (vap (Except.ok AlienContact.mk)
    (one (vContactId r))) (one (vContactTimestamp r))) (one (vLocation r)))
    (one (vContactType r))) (one (vSignalStrength r))) (one (vDurationMinutes r)))
    (one (vWitnessCount r))) (one (vMessageReceived r))) (one (vIsVerified r))

/-- The cross-field invariants of `AlienContact.validate_contact`, as
(pass-predicate, violation message) pairs in source declaration order. -/
def contactInvariants : List ((AlienContact → Bool) × String) :=
  [ (fun c => strStartsWith c.contact_id "AC",
     "Contact ID must start with \"AC\" (Alien Contact)"),
    (fun c => !(decide (c.contact_type = ContactType.physical) && !c.is_verified),
     "Physical contact reports must be verified"),
    (fun c => !(decide (c.contact_type = ContactType.telepathic) &&
                decide (c.witness_count < 3)),
     "Telepathic contact requires at least 3 witnesses"),
    (fun c => !(decide (c.signal_strength > 7) &&
                decide (c.message_received = none)),
     "Strong signals (> 7.0) should include received messages") ]

/-- Modelled from the spec: full validation of a raw contact — the
aggregated field phase, then (only if every field validates) the
short-circuited invariants of `validate_contact`. -/
def validateContact (r : RawContact) : Report AlienContact :=
  match contactFields r with
  | Except.error es => Report.errors es
  | Except.ok c =>
    match runInvariants contactInvariants c with
    | Except.error msg => Report.errors [("", msg)]
    | Except.ok c2 => Report.ok c2

/-! ## Exercise 2: `CrewMember` and `SpaceMission` (src/ex2/space_crew.py) -/

/-- The `Rank` enumeration of src/ex2/space_crew.py. -/
inductive Rank where
  | cadet
  | officer
  | lieutenant
  | captain
  | commander
  deriving DecidableEq, Repr

/-- Modelled from the spec: coercion of a raw value to a `Rank` tag. -/
def coerceRank : RawValue → Option Rank
  | RawValue.str "cadet" => some Rank.cadet
  | RawValue.str "officer" => some Rank.officer
  | RawValue.str "lieutenant" => some Rank.lieutenant
  | RawValue.str "captain" => some Rank.captain
  | RawValue.str "commander" => some Rank.commander
  | _ => none

/-- The `CrewMember` record of src/ex2/space_crew.py. -/
structure CrewMember where
  member_id : String
  name : String
  rank : Rank
  age : Int
  specialization : String
  years_experience : Int
  is_active : Bool
  deriving DecidableEq, Repr

/-- Modelled from the spec: raw keyword input for a `CrewMember`. -/
structure RawCrewMember where
  member_id : Option RawValue := none
  name : Option RawValue := none
  rank : Option RawValue := none
  age : Option RawValue := none
  specialization : Option RawValue := none
  years_experience : Option RawValue := none
  is_active : Option RawValue := none
  deriving DecidableEq, Repr

/-- Field validator for `member_id`: string, min_length 3, max_length 10. -/
def vMemberId (r : RawCrewMember) : Except Err String :=
  checkField "member_id" "string" coerceStr
    (fun s => decide (3 ≤ s.length ∧ s.length ≤ 10)) none r.member_id

/-- Field validator for a crew member's `name`: string, min_length 2,
max_length 50. -/
def vMemberName (r : RawCrewMember) : Except Err String :=
  checkField "name" "string" coerceStr
    (fun s => decide (2 ≤ s.length ∧ s.length ≤ 50)) none r.name

/-- Field validator for `rank`: enumeration, required. -/
def vRank (r : RawCrewMember) : Except Err Rank :=
  checkField "rank" "rank" coerceRank (fun _ => true) none r.rank

/-- Field validator for `age`: integer, ge 18, le 80. -/
def vAge (r : RawCrewMember) : Except Err Int :=
  checkField "age" "integer" coerceInt
    (fun n => decide (18 ≤ n ∧ n ≤ 80)) none r.age

/-- Field validator for `specialization`: string, min_length 3, max_length 30. -/
def vSpecialization (r : RawCrewMember) : Except Err String :=
  checkField "specialization" "string" coerceStr
    (fun s => decide (3 ≤ s.length ∧ s.length ≤ 30)) none r.specialization

/-- Field validator for `years_experience`: integer, ge 0, le 50. -/
def vYearsExperience (r : RawCrewMember) : Except Err Int :=
  checkField "years_experience" "integer" coerceInt
    (fun n => decide (0 ≤ n ∧ n ≤ 50)) none r.years_experience

/-- Field validator for `is_active`: boolean, optional with default `True`. -/
def vIsActive (r : RawCrewMember) : Except Err Bool :=
  checkField "is_active" "boolean" coerceBool
    (fun _ => true) (some true) r.is_active

/-- All field-level errors of a raw crew member, in declared field order. -/
def crewMemberFieldErrors (r : RawCrewMember) : List Err :=
  errsOf (vMemberId r) ++ errsOf (vMemberName r) ++ errsOf (vRank r) ++
  errsOf (vAge r) ++ errsOf (vSpecialization r) ++ errsOf (vYearsExperience r) ++
  errsOf (vIsActive r)

/-- Modelled from the spec: the field phase of crew-member validation.
`CrewMember` declares no cross-field invariants. -/
def crewMemberFields (r : RawCrewMember) : Except (List Err) CrewMember :=
  vap (vap (vap (vap (vap (vap (vap (Except.ok CrewMember.mk)
    (one (vMemberId r))) (one (vMemberName r))) (one (vRank r)))
    (one (vAge r))) (one (vSpecialization r))) (one (vYearsExperience r)))
    (one (vIsActive r))

/-- The validated values of a list of raw crew members, if every
element validates. -/
def crewValues : List RawCrewMember → Option (List CrewMember)
  | [] => some []
  | c :: rest =>
    match okOf (crewMemberFields c), crewValues rest with
    | some v, some vs => some (v :: vs)
    | _, _ => none

/-- Modelled from the spec: a nested element's errors are merged into
the parent report with the indexed-and-dotted path convention, e.g.
a failure of field `age` of element 1 of `crew` gets path `crew[1].age`. -/
def prefixedMemberErrors (i : Nat) (c : RawCrewMember) : List Err :=
  (errsOfL (crewMemberFields c)).map
    (fun e => ("crew[" ++ toString i ++ "]." ++ e.1, e.2))

/-- Modelled from the spec: the path-prefixed errors of the crew
elements from index `i` on. -/
def prefErrsFrom (i : Nat) : List RawCrewMember → List Err
  | [] => []
  | c :: rest => prefixedMemberErrors i c ++ prefErrsFrom (i + 1) rest

/-- Field validator for `crew`: sequence of nested `CrewMember`
records, min_length 1, max_length 12; element count is checked and
every element is independently validated, its errors path-prefixed. -/
def vCrew (r : Option (List RawCrewMember)) : Except (List Err) (List CrewMember) :=
  match r with
  | none => Except.error [("crew", "field is required")]
  | some xs =>
    match crewValues xs with
    | some vs =>
      if decide (1 ≤ xs.length ∧ xs.length ≤ 12) then Except.ok vs
      else Except.error [("crew", "value out of range")]
    | none =>
      Except.error
        ((if decide (1 ≤ xs.length ∧ xs.length ≤ 12) then []
          else [("crew", "value out of range")]) ++ prefErrsFrom 0 xs)

/-- The `SpaceMission` record of src/ex2/space_crew.py. -/
structure SpaceMission where
  mission_id : String
  mission_name : String
  destination : String
  launch_date : Int
  duration_days : Int
  crew : List CrewMember
  mission_status : String
  budget_millions : Rat
  deriving DecidableEq, Repr

/-- Modelled from the spec: raw keyword input for a `SpaceMission`;
the `crew` field is a sequence of raw nested records. -/
structure RawMission where
  mission_id : Option RawValue := none
  mission_name : Option RawValue := none
  destination : Option RawValue := none
  launch_date : Option RawValue := none
  duration_days : Option RawValue := none
  crew : Option (List RawCrewMember) := none
  mission_status : Option RawValue := none
  budget_millions : Option RawValue := none
  deriving DecidableEq, Repr

/-- Field validator for `mission_id`: string, min_length 5, max_length 15. -/
def vMissionId (r : RawMission) : Except Err String :=
  checkField "mission_id" "string" coerceStr
    (fun s => decide (5 ≤ s.length ∧ s.length ≤ 15)) none r.mission_id

/-- Field validator for `mission_name`: string, min_length 3, max_length 100. -/
def vMissionName (r : RawMission) : Except Err String :=
  checkField "mission_name" "string" coerceStr
    (fun s => decide (3 ≤ s.length ∧ s.length ≤ 100)) none r.mission_name

/-- Field validator for `destination`: string, min_length 3, max_length 50. -/
def vDestination (r : RawMission) : Except Err String :=
  checkField "destination" "string" coerceStr
    (fun s => decide (3 ≤ s.length ∧ s.length ≤ 50)) none r.destination

/-- Field validator for `launch_date`: timestamp, required. -/
def vLaunchDate (r : RawMission) : Except Err Int :=
  checkField "launch_date" "timestamp" coerceTimestamp
    (fun _ => true) none r.launch_date

/-- Field validator for `duration_days`: integer, ge 1, le 3650. -/
def vDurationDays (r : RawMission) : Except Err Int :=
  checkField "duration_days" "integer" coerceInt
    (fun n => decide (1 ≤ n ∧ n ≤ 3650)) none r.duration_days

/-- Field validator for `mission_status`: string, optional with
default "planned", no bounds. -/
def vMissionStatus (r : RawMission) : Except Err String :=
  checkField "mission_status" "string" coerceStr
    (fun _ => true) (some "planned") r.mission_status

/-- Field validator for `budget_millions`: float, ge 1.0, le 10000.0. -/
def vBudgetMillions (r : RawMission) : Except Err Rat :=
  checkField "budget_millions" "float" coerceFloat
    (fun q => decide (1 ≤ q ∧ q ≤ 10000)) none r.budget_millions

/-- All field-level errors of a raw mission, in declared field order,
nested crew errors included at the position of the `crew` field. -/
def missionFieldErrors (r : RawMission) : List Err :=
  errsOf (vMissionId r) ++ errsOf (vMissionName r) ++ errsOf (vDestination r) ++
  errsOf (vLaunchDate r) ++ errsOf (vDurationDays r) ++ errsOfL (vCrew r.crew) ++
  errsOf (vMissionStatus r) ++ errsOf (vBudgetMillions r)

/-- Modelled from the spec: the field phase of mission validation —
every field is checked (recursing into the nested crew records) and
all errors are aggregated in declared order. -/
def missionFields (r : RawMission) : Except (List Err) SpaceMission :=
  vap (vap (vap (vap (vap (vap (vap (vap (Except.ok SpaceMission.mk)
    (one (vMissionId r))) (one (vMissionName r))) (one (vDestination r)))
    (one (vLaunchDate r))) (one (vDurationDays r))) (vCrew r.crew))
    (one (vMissionStatus r))) (one (vBudgetMillions r))

/-- The number of crew members with at least 5 years of experience
(`member.years_experience >= 5` in `validate_mission`). -/
def experiencedCount (crew : List CrewMember) : Nat :=
  (crew.filter fun member => decide (member.years_experience ≥ 5)).length

/-- The cross-field invariants of `SpaceMission.validate_mission`, as
(pass-predicate, violation message) pairs in source declaration order. -/
def missionInvariants : List ((SpaceMission → Bool) × String) :=
  [ (fun m => strStartsWith m.mission_id "M",
     "Mission ID must start with \"M\""),
    (fun m => m.crew.any fun member =>
       decide (member.rank = Rank.captain) || decide (member.rank = Rank.commander),
     "Must have at least one Commander or Captain"),
    (fun m => !(decide (m.duration_days > 365) &&
                decide ((experiencedCount m.crew : Rat) / (m.crew.length : Rat) < 0.5)),
     "Long missions (> 365 days) need 50% experienced crew (5+ years)"),
    (fun m => m.crew.all fun member => member.is_active,
     "All crew members must be active") ]

/-- Modelled from the spec: full validation of a raw mission — the
aggregated field phase, then (only if every field validates) the
short-circuited invariants of `validate_mission`. -/
def validateMission (r : RawMission) : Report SpaceMission :=
  match missionFields r with
  | Except.error es => Report.errors es
  | Except.ok m =>
    match runInvariants missionInvariants m with
    | Except.error msg => Report.errors [("", msg)]
    | Except.ok m2 => Report.ok m2

/-! ## Concrete inputs used as witnesses and counterexamples -/

/-- A valid raw crew member: an experienced commander (12 years). -/
def rawSarah : RawCrewMember :=
  { member_id := some (RawValue.str "CREW_001"),
    name := some (RawValue.str "Sarah Connor"),
    rank := some (RawValue.str "commander"),
    age := some (RawValue.int 32),
    specialization := some (RawValue.str "Mission Command"),
    years_experience := some (RawValue.int 12) }

/-- A valid raw crew member: an inexperienced lieutenant (3 years). -/
def rawJohn : RawCrewMember :=
  { member_id := some (RawValue.str "CREW_002"),
    name := some (RawValue.str "John Smith"),
    rank := some (RawValue.str "lieutenant"),
    age := some (RawValue.int 26),
    specialization := some (RawValue.str "Navigation"),
    years_experience := some (RawValue.int 3) }

/-- A valid raw crew member: an inexperienced officer (2 years). -/
def rawMike : RawCrewMember :=
  { member_id := some (RawValue.str "CREW_003"),
    name := some (RawValue.str "Mike Ross"),
    rank := some (RawValue.str "officer"),
    age := some (RawValue.int 27),
    specialization := some (RawValue.str "Engineering"),
    years_experience := some (RawValue.int 2) }

/-- A valid raw crew member: an experienced cadet (7 years). -/
def rawBob : RawCrewMember :=
  { member_id := some (RawValue.str "CREW_004"),
    name := some (RawValue.str "Bob Stone"),
    rank := some (RawValue.str "cadet"),
    age := some (RawValue.int 30),
    specialization := some (RawValue.str "Maintenance"),
    years_experience := some (RawValue.int 7) }

/-- The validated instance of `rawSarah`. -/
def sarah : CrewMember :=
  { member_id := "CREW_001", name := "Sarah Connor", rank := Rank.commander,
    age := 32, specialization := "Mission Command", years_experience := 12,
    is_active := true }

/-- The validated instance of `rawJohn`. -/
def john : CrewMember :=
  { member_id := "CREW_002", name := "John Smith", rank := Rank.lieutenant,
    age := 26, specialization := "Navigation", years_experience := 3,
    is_active := true }

/-- The validated instance of `rawMike`. -/
def mike : CrewMember :=
  { member_id := "CREW_003", name := "Mike Ross", rank := Rank.officer,
    age := 27, specialization := "Engineering", years_experience := 2,
    is_active := true }

/-- The validated instance of `rawBob`. -/
def bob : CrewMember :=
  { member_id := "CREW_004", name := "Bob Stone", rank := Rank.cadet,
    age := 30, specialization := "Maintenance", years_experience := 7,
    is_active := true }

/-- A raw long-duration mission with 1 experienced crew member of 3. -/
def rawMissionC4 : RawMission :=
  { mission_id := some (RawValue.str "M2024_MARS"),
    mission_name := some (RawValue.str "Mars Colony Establishment"),
    destination := some (RawValue.str "Mars"),
    launch_date := some (RawValue.timestamp 0),
    duration_days := some (RawValue.int 900),
    crew := some [rawSarah, rawJohn, rawMike],
    budget_millions := some (RawValue.float 2500) }

/-- `rawMissionC4` with a mission id that does not start with "M". -/
def rawMissionC4x : RawMission :=
  { rawMissionC4 with mission_id := some (RawValue.str "X2024_MARS") }

/-- The field-validated instance of `rawMissionC4`. -/
def missionC4 : SpaceMission :=
  { mission_id := "M2024_MARS", mission_name := "Mars Colony Establishment",
    destination := "Mars", launch_date := 0, duration_days := 900,
    crew := [sarah, john, mike], mission_status := "planned",
    budget_millions := 2500 }

/-- The field-validated instance of `rawMissionC4x`. -/
def missionC4x : SpaceMission :=
  { missionC4 with mission_id := "X2024_MARS" }

/-- A raw long-duration mission with exactly 2 experienced crew members of 4. -/
def rawMissionC10 : RawMission :=
  { rawMissionC4 with crew := some [rawSarah, rawJohn, rawMike, rawBob] }

/-- `rawMissionC10` with a mission id that does not start with "M". -/
def rawMissionC10x : RawMission :=
  { rawMissionC10 with mission_id := some (RawValue.str "X2024_MARS") }

/-- The field-validated instance of `rawMissionC10`. -/
def missionC10 : SpaceMission :=
  { missionC4 with crew := [sarah, john, mike, bob] }

/-- The field-validated instance of `rawMissionC10x`. -/
def missionC10x : SpaceMission :=
  { missionC10 with mission_id := "X2024_MARS" }

/-- A raw mission whose second crew member has an out-of-range age. -/
def rawMissionC7 : RawMission :=
  { rawMissionC4 with
    crew := some [rawSarah, { rawJohn with age := some (RawValue.int 999) }, rawMike] }

/-- A raw short mission with exactly two failing invariants: its id
does not start with "M" and its crew has no captain or commander. -/
def rawMissionC1 : RawMission :=
  { rawMissionC4 with
    mission_id := some (RawValue.str "X2024_MARS"),
    duration_days := some (RawValue.int 100),
    crew := some [rawJohn, rawMike] }

/-- The field-validated instance of `rawMissionC1`. -/
def missionC1 : SpaceMission :=
  { missionC4 with
    mission_id := "X2024_MARS"
    duration_days := 100
    crew := [john, mike] }

/-- A raw mission with an out-of-range `duration_days` field. -/
def rawMissionC3 : RawMission :=
  { rawMissionC4 with duration_days := some (RawValue.int 0) }

/-- A raw station with every field valid. -/
def rawStationOk : RawStation :=
  { station_id := some (RawValue.str "ISS001"),
    name := some (RawValue.str "International Space Station"),
    crew_size := some (RawValue.int 6),
    power_level := some (RawValue.float 85),
    oxygen_level := some (RawValue.float 92),
    last_maintenance := some (RawValue.timestamp 100) }

/-- `rawStationOk` with an out-of-range crew size. -/
def rawStationC6 : RawStation :=
  { rawStationOk with crew_size := some (RawValue.int 32) }

/-- `rawStationC6` with, in addition, an empty (too short) name:
exactly two invalid fields. -/
def rawStationC2 : RawStation :=
  { rawStationC6 with name := some (RawValue.str "") }

/-- A raw telepathic contact, every field valid, a single witness. -/
def rawContactC5 : RawContact :=
  { contact_id := some (RawValue.str "AC_2024_001"),
    timestamp := some (RawValue.timestamp 5),
    location := some (RawValue.str "Area 51, Nevada"),
    contact_type := some (RawValue.str "telepathic"),
    signal_strength := some (RawValue.float 8),
    duration_minutes := some (RawValue.int 45),
    witness_count := some (RawValue.int 1),
    message_received := some (RawValue.str "Greetings from Zeta Reticuli") }

/-- The field-validated instance of `rawContactC5`. -/
def contactC5 : AlienContact :=
  { contact_id := "AC_2024_001", timestamp := 5, location := "Area 51, Nevada",
    contact_type := ContactType.telepathic, signal_strength := 8,
    duration_minutes := 45, witness_count := 1,
    message_received := some "Greetings from Zeta Reticuli",
    is_verified := false }

/-- `rawContactC5` with a contact id that does not start with "AC":
two failing invariants (id prefix and telepathic witnesses). -/
def rawContactC1 : RawContact :=
  { rawContactC5 with contact_id := some (RawValue.str "BC_2024_001") }

/-- The field-validated instance of `rawContactC1`. -/
def contactC1 : AlienContact :=
  { contactC5 with contact_id := "BC_2024_001" }

/-- `rawContactC5` with an out-of-range witness count (field error). -/
def rawContactC3 : RawContact :=
  { rawContactC5 with witness_count := some (RawValue.int 0) }

/-! ## Helper lemmas -/

/-- A failed single-field result contributes exactly its one error. -/
theorem errsOf_length {α : Type} (e : Except Err α) :
    (errsOf e).length = (isBad e).toNat := by
  cases e <;> rfl

/-- A non-failing single-field result contributes no error. -/
theorem errsOf_of_not_bad {α : Type} {e : Except Err α} (h : isBad e = false) :
    errsOf e = [] := by
  cases e <;> simp_all [isBad, errsOf]

/-- The field phase of station validation either succeeds with an empty
error list or fails with exactly the aggregated field errors. -/
theorem stationFields_cases (r : RawStation) :
    (stationFieldErrors r = [] ∧ ∃ s, stationFields r = Except.ok s) ∨
    stationFields r = Except.error (stationFieldErrors r) := by
  unfold stationFields stationFieldErrors
  cases vStationId r <;> cases vStationName r <;> cases vCrewSize r <;>
    cases vPowerLevel r <;> cases vOxygenLevel r <;> cases vLastMaintenance r <;>
    cases vIsOperational r <;> cases vStationNotes r <;>
    simp [vap, one, errsOf]

/-- The field phase of contact validation either succeeds with an empty
error list or fails with exactly the aggregated field errors. -/
theorem contactFields_cases (r : RawContact) :
    (contactFieldErrors r = [] ∧ ∃ c, contactFields r = Except.ok c) ∨
    contactFields r = Except.error (contactFieldErrors r) := by
  unfold contactFields contactFieldErrors
  cases vContactId r <;> cases vContactTimestamp r <;> cases vLocation r <;>
    cases vContactType r <;> cases vSignalStrength r <;> cases vDurationMinutes r <;>
    cases vWitnessCount r <;> cases vMessageReceived r <;> cases vIsVerified r <;>
    simp [vap, one, errsOf]

/-- The field phase of mission validation either succeeds — with an
empty error list and a crew taken from the validated `crew` field — or
fails with exactly the aggregated field errors. -/
theorem missionFields_cases (r : RawMission) :
    (missionFieldErrors r = [] ∧
      ∃ m, missionFields r = Except.ok m ∧ vCrew r.crew = Except.ok m.crew) ∨
    missionFields r = Except.error (missionFieldErrors r) := by
  unfold missionFields missionFieldErrors
  cases vMissionId r <;> cases vMissionName r <;> cases vDestination r <;>
    cases vLaunchDate r <;> cases vDurationDays r <;> cases vCrew r.crew <;>
    cases vMissionStatus r <;> cases vBudgetMillions r <;>
    simp [vap, one, errsOf, errsOfL]

/-- Running the invariants stops at the first failing one and returns
exactly its message. -/
theorem runInvariants_firstFail {α : Type} {invs : List ((α → Bool) × String)}
    {a : α} {msg : String} (h : firstFailMsg invs a = some msg) :
    runInvariants invs a = Except.error msg := by
  induction invs with
  | nil => simp [firstFailMsg] at h
  | cons pm rest ih =>
    by_cases hp : pm.1 a = true
    · rw [firstFailMsg, if_pos hp] at h
      rw [runInvariants, if_pos hp]
      exact ih h
    · rw [firstFailMsg, if_neg hp] at h
      rw [runInvariants, if_neg hp]
      simp_all

/-- If some invariant fails, the first failing message exists. -/
theorem firstFailMsg_of_countFailing {α : Type} {invs : List ((α → Bool) × String)}
    {a : α} (h : 0 < countFailing invs a) : ∃ msg, firstFailMsg invs a = some msg := by
  induction invs with
  | nil => simp [countFailing] at h
  | cons pm rest ih =>
    by_cases hp : pm.1 a = true
    · rw [firstFailMsg, if_pos hp]
      apply ih
      simpa [countFailing, List.filter, hp] using h
    · rw [firstFailMsg, if_neg hp]
      exact ⟨pm.2, rfl⟩

/-- Validating a list of raw crew members preserves its length. -/
theorem crewValues_length {xs : List RawCrewMember} {vs : List CrewMember}
    (h : crewValues xs = some vs) : vs.length = xs.length := by
  induction xs generalizing vs with
  | nil =>
    simp [crewValues] at h
    simp [← h]
  | cons c rest ih =>
    cases hok : okOf (crewMemberFields c) with
    | none => simp [crewValues, hok] at h
    | some v =>
      cases hrest : crewValues rest with
      | none => simp [crewValues, hok, hrest] at h
      | some ws =>
        simp [crewValues, hok, hrest] at h
        simp [← h, ih hrest]

/-- A crew list that passes its field validation has between 1 and 12
members: the minimum element count is enforced at the field level. -/
theorem vCrew_ok_length {o : Option (List RawCrewMember)} {cs : List CrewMember}
    (h : vCrew o = Except.ok cs) : 1 ≤ cs.length ∧ cs.length ≤ 12 := by
  cases o with
  | none => simp [vCrew] at h
  | some xs =>
    cases hv : crewValues xs with
    | none => simp [vCrew, hv] at h
    | some vs =>
      by_cases hb : (1 ≤ xs.length ∧ xs.length ≤ 12)
      · have hlen := crewValues_length hv
        simp [vCrew, hv, hb] at h
        subst h
        omega
      · simp [vCrew, hv, hb] at h

/-- A crew member that passes its field validation contributes no
prefixed errors to the parent report. -/
theorem prefixedMemberErrors_of_ok {i : Nat} {c : RawCrewMember}
    (h : ∃ v, crewMemberFields c = Except.ok v) :
    prefixedMemberErrors i c = [] := by
  obtain ⟨v, hv⟩ := h
  simp [prefixedMemberErrors, hv, errsOfL]

/-- A suffix of all-valid crew members contributes no prefixed errors. -/
theorem prefErrsFrom_of_ok {xs : List RawCrewMember}
    (h : ∀ c ∈ xs, ∃ v, crewMemberFields c = Except.ok v) :
    ∀ i, prefErrsFrom i xs = [] := by
  induction xs with
  | nil => intro i; rfl
  | cons c rest ih =>
    intro i
    rw [prefErrsFrom, prefixedMemberErrors_of_ok (h c (by simp)),
      ih (fun d hd => h d (by simp [hd]))]
    rfl

/-- A crew member with a non-empty error list did not validate. -/
theorem okOf_crewMemberFields_eq_none {c : RawCrewMember} {e : Err}
    (he : e ∈ errsOfL (crewMemberFields c)) :
    okOf (crewMemberFields c) = none := by
  cases hc : crewMemberFields c with
  | ok v =>
    rw [hc] at he
    simp [errsOfL] at he
  | error es => rfl

/-- If any element of the raw crew list fails its own validation, the
crew list as a whole produces no validated value. -/
theorem crewValues_eq_none {xs : List RawCrewMember} {i : Nat} (hi : i < xs.length)
    (h : okOf (crewMemberFields (xs.get ⟨i, hi⟩)) = none) :
    crewValues xs = none := by
  induction xs generalizing i with
  | nil => exact absurd hi (Nat.not_lt_zero i)
  | cons c rest ih =>
    cases i with
    | zero =>
      have h0 : okOf (crewMemberFields c) = none := h
      simp [crewValues, h0]
    | succ j =>
      have hj : j < rest.length := Nat.lt_of_succ_lt_succ hi
      have hr : crewValues rest = none := ih hj h
      cases hok : okOf (crewMemberFields c) with
      | none => simp [crewValues, hok]
      | some v => simp [crewValues, hok, hr]

/-- Every error of the element at index `i` of the raw crew list
appears among the prefixed errors, under the path built from the
element's index offset by the starting index `k`. -/
theorem mem_prefErrsFrom {e : Err} :
    ∀ (xs : List RawCrewMember) (k i : Nat) (hi : i < xs.length),
      e ∈ errsOfL (crewMemberFields (xs.get ⟨i, hi⟩)) →
      ("crew[" ++ toString (k + i) ++ "]." ++ e.1, e.2) ∈ prefErrsFrom k xs := by
  intro xs
  induction xs with
  | nil => intro k i hi; exact absurd hi (Nat.not_lt_zero i)
  | cons c rest ih =>
    intro k i hi he
    cases i with
    | zero =>
      simp only [prefErrsFrom]
      apply List.mem_append_left
      rw [Nat.add_zero]
      unfold prefixedMemberErrors
      exact List.mem_map_of_mem _ he
    | succ j =>
      simp only [prefErrsFrom]
      apply List.mem_append_right
      have hj : j < rest.length := Nat.lt_of_succ_lt_succ hi
      have hk : k + (j + 1) = (k + 1) + j := by omega
      rw [hk]
      exact ih (k + 1) j hj he

/-! ## Claims -/

/-- C2: for every raw station record in which two or more fields
violate their field constraints, validation does not stop at the first
failing field: the returned report is exactly the aggregated field
errors in the schema's declared field order (`stationFieldErrors`
lists them in field-declaration order), with one entry per failing
field — in particular exactly two entries for exactly two invalid
fields. -/
theorem c2_two_bad_fields_two_errors (r : RawStation)
    (h : 2 ≤ numBadStationFields r) :
    validateStation r = Report.errors (stationFieldErrors r) ∧
    (stationFieldErrors r).length = numBadStationFields r := by
  have hlen : (stationFieldErrors r).length = numBadStationFields r := by
    simp [stationFieldErrors, numBadStationFields, errsOf_length]
    omega
  have hne : stationFieldErrors r ≠ [] := by
    intro hnil
    rw [hnil] at hlen
    simp at hlen
    omega
  rcases stationFields_cases r with ⟨hnil, -⟩ | herr
  · exact absurd hnil hne
  · exact ⟨by simp [validateStation, herr], hlen⟩

/-- C2 witness: `rawStationC2` has exactly two invalid fields (an empty
name and an out-of-range crew size) and gets one entry per failing
field, i.e. exactly two errors. -/
theorem c2_two_bad_fields_two_errors_witness :
    2 ≤ numBadStationFields rawStationC2 ∧
    numBadStationFields rawStationC2 = 2 ∧
    (validateStation rawStationC2 = Report.errors (stationFieldErrors rawStationC2) ∧
      (stationFieldErrors rawStationC2).length = numBadStationFields rawStationC2) :=
  ⟨by decide, by decide, c2_two_bad_fields_two_errors rawStationC2 (by decide)⟩

/-- C3: for both record types with cross-field invariants, if any
field-level error exists, validation returns exactly the collected
field errors and skips the invariants: the invariant phase is only
reached on a fully field-valid record, so no invariant entry can
appear in the report. -/
theorem c3_field_errors_skip_invariants :
    (∀ r : RawContact, contactFieldErrors r ≠ [] →
      validateContact r = Report.errors (contactFieldErrors r)) ∧
    (∀ r : RawMission, missionFieldErrors r ≠ [] →
      validateMission r = Report.errors (missionFieldErrors r)) := by
  constructor
  · intro r hne
    rcases contactFields_cases r with ⟨hnil, -⟩ | herr
    · exact absurd hnil hne
    · simp [validateContact, herr]
  · intro r hne
    rcases missionFields_cases r with ⟨hnil, -⟩ | herr
    · exact absurd hnil hne
    · simp [validateMission, herr]

/-- C3 witness: a contact with an out-of-range witness count and a
mission with an out-of-range duration both report their field errors
and nothing else. -/
theorem c3_field_errors_skip_invariants_witness :
    contactFieldErrors rawContactC3 ≠ [] ∧
    validateContact rawContactC3 = Report.errors (contactFieldErrors rawContactC3) ∧
    missionFieldErrors rawMissionC3 ≠ [] ∧
    validateMission rawMissionC3 = Report.errors (missionFieldErrors rawMissionC3) :=
  ⟨by decide, c3_field_errors_skip_invariants.1 rawContactC3 (by decide),
   by decide, c3_field_errors_skip_invariants.2 rawMissionC3 (by decide)⟩

/-- C6: a station record whose fields are all valid except
`crew_size = 32` (declared inclusive bounds [1,20]) yields a report
with exactly one entry, field path "crew_size" and the bounds-failure
message "value out of range", which is distinct from the
coercion-failure message. -/
theorem c6_crew_size_out_of_range (r : RawStation)
    (h1 : isBad (vStationId r) = false) (h2 : isBad (vStationName r) = false)
    (h4 : isBad (vPowerLevel r) = false) (h5 : isBad (vOxygenLevel r) = false)
    (h6 : isBad (vLastMaintenance r) = false) (h7 : isBad (vIsOperational r) = false)
    (h8 : isBad (vStationNotes r) = false)
    (hcs : r.crew_size = some (RawValue.int 32)) :
    validateStation r = Report.errors [("crew_size", "value out of range")] ∧
    ("value out of range" : String) ≠ "cannot interpret value as integer" := by
  have hc : vCrewSize r = Except.error ("crew_size", "value out of range") := by
    simp [vCrewSize, checkField, coerceInt, hcs]
  have hfe : stationFieldErrors r = [("crew_size", "value out of range")] := by
    rw [stationFieldErrors, errsOf_of_not_bad h1, errsOf_of_not_bad h2,
      errsOf_of_not_bad h4, errsOf_of_not_bad h5, errsOf_of_not_bad h6,
      errsOf_of_not_bad h7, errsOf_of_not_bad h8, hc]
    rfl
  have hne : stationFieldErrors r ≠ [] := by simp [hfe]
  rcases stationFields_cases r with ⟨hnil, -⟩ | herr
  · exact absurd hnil hne
  · rw [hfe] at herr
    exact ⟨by simp [validateStation, herr], by decide⟩

/-- C6 witness: a station record with crew size 32 and all other
fields valid gets exactly the single bounds error. -/
theorem c6_crew_size_out_of_range_witness :
    rawStationC6.crew_size = some (RawValue.int 32) ∧
    (validateStation rawStationC6 = Report.errors [("crew_size", "value out of range")] ∧
      ("value out of range" : String) ≠ "cannot interpret value as integer") :=
  ⟨rfl, c6_crew_size_out_of_range rawStationC6 (by decide) (by decide) (by decide)
    (by decide) (by decide) (by decide) (by decide) rfl⟩

/-- C1: for every record whose fields all validate but on which two or
more cross-field invariants fail, validation returns a report with
exactly one entry: the root-path entry carrying the message of the
first failing invariant in declared order (the invariant phase is
short-circuited, so later invariants are never evaluated).  Stated for
both record types that declare invariants. -/
theorem c1_invariants_short_circuit :
    (∀ (r : RawContact) (c : AlienContact) (msg : String),
      contactFields r = Except.ok c →
      2 ≤ countFailing contactInvariants c →
      firstFailMsg contactInvariants c = some msg →
      validateContact r = Report.errors [("", msg)]) ∧
    (∀ (r : RawMission) (m : SpaceMission) (msg : String),
      missionFields r = Except.ok m →
      2 ≤ countFailing missionInvariants m →
      firstFailMsg missionInvariants m = some msg →
      validateMission r = Report.errors [("", msg)]) := by
  constructor
  · intro r c msg hok _ hfirst
    simp [validateContact, hok, runInvariants_firstFail hfirst]
  · intro r m msg hok _ hfirst
    simp [validateMission, hok, runInvariants_firstFail hfirst]

/-- C1 witness: a field-valid contact failing both the id-prefix and
the telepathic-witness invariants reports only the id-prefix message,
and a field-valid mission failing both the id-prefix and the
commander invariants reports only the id-prefix message. -/
theorem c1_invariants_short_circuit_witness :
    (contactFields rawContactC1 = Except.ok contactC1 ∧
      2 ≤ countFailing contactInvariants contactC1 ∧
      firstFailMsg contactInvariants contactC1 =
        some "Contact ID must start with \"AC\" (Alien Contact)" ∧
      validateContact rawContactC1 =
        Report.errors [("", "Contact ID must start with \"AC\" (Alien Contact)")]) ∧
    (missionFields rawMissionC1 = Except.ok missionC1 ∧
      2 ≤ countFailing missionInvariants missionC1 ∧
      firstFailMsg missionInvariants missionC1 =
        some "Mission ID must start with \"M\"" ∧
      validateMission rawMissionC1 =
        Report.errors [("", "Mission ID must start with \"M\"")]) :=
  ⟨⟨by decide, by decide, by decide,
    c1_invariants_short_circuit.1 rawContactC1 contactC1 _
      (by decide) (by decide) (by decide)⟩,
   ⟨by decide, by decide, by decide,
    c1_invariants_short_circuit.2 rawMissionC1 missionC1 _
      (by decide) (by decide) (by decide)⟩⟩

/-- C5: an alien-contact record whose fields all validate, whose
contact id starts with "AC", which is not an unverified physical
contact, and whose contact type is telepathic with strictly fewer than
3 witnesses, fails with the single telepathic-witness invariant
violation. -/
theorem c5_telepathic_witness_rule (r : RawContact) (c : AlienContact)
    (hok : contactFields r = Except.ok c)
    (h1 : strStartsWith c.contact_id "AC" = true)
    (h2 : ¬(c.contact_type = ContactType.physical ∧ c.is_verified = false))
    (h3 : c.contact_type = ContactType.telepathic)
    (h4 : c.witness_count < 3) :
    validateContact r =
      Report.errors [("", "Telepathic contact requires at least 3 witnesses")] := by
  have e2 : (!(decide (c.contact_type = ContactType.physical) && !c.is_verified)) = true := by
    simp [h3]
  have e3 : (!(decide (c.contact_type = ContactType.telepathic) &&
      decide (c.witness_count < 3))) = false := by
    simp [h3, h4]
  simp [validateContact, hok, runInvariants, contactInvariants, h1, e2, e3]

/-- C5 witness: the telepathic single-witness demo contact of src/ex1
(all fields valid) is rejected with exactly the telepathic-witness
message. -/
theorem c5_telepathic_witness_rule_witness :
    contactFields rawContactC5 = Except.ok contactC5 ∧
    strStartsWith contactC5.contact_id "AC" = true ∧
    contactC5.contact_type = ContactType.telepathic ∧
    contactC5.witness_count < 3 ∧
    validateContact rawContactC5 =
      Report.errors [("", "Telepathic contact requires at least 3 witnesses")] :=
  ⟨by decide, by decide, by decide, by decide,
   c5_telepathic_witness_rule rawContactC5 contactC5
     (by decide) (by decide) (by decide) (by decide) (by decide)⟩

/-- C8: the denominator of the proportional-experience division is
never zero — whenever the invariant phase is reached (the field phase
succeeded), the mission's crew is non-empty, because an empty crew
already fails the field-level minimum-count constraint (min 1) and
field failures skip all invariants. -/
theorem c8_experience_ratio_denominator_positive (r : RawMission) (m : SpaceMission)
    (hok : missionFields r = Except.ok m) :
    0 < m.crew.length ∧ ((m.crew.length : Rat) ≠ 0) := by
  rcases missionFields_cases r with ⟨-, m2, hm2, hcrew⟩ | herr
  · have h12 : (Except.ok m : Except (List Err) SpaceMission) = Except.ok m2 :=
      hok.symm.trans hm2
    have hmm : m = m2 := by injection h12
    subst hmm
    have hb := vCrew_ok_length hcrew
    refine ⟨by omega, ?_⟩
    have hpos : (0 : Rat) < (m.crew.length : Rat) := by
      exact_mod_cast Nat.pos_of_ne_zero (by omega)
    exact hpos.ne'
  · rw [herr] at hok
    cases hok

/-- C8 witness: a field-valid 3-member mission reaches the invariant
phase with a positive crew count. -/
theorem c8_experience_ratio_denominator_positive_witness :
    missionFields rawMissionC4 = Except.ok missionC4 ∧
    (0 < missionC4.crew.length ∧ ((missionC4.crew.length : Rat) ≠ 0)) :=
  ⟨by decide,
   c8_experience_ratio_denominator_positive rawMissionC4 missionC4 (by decide)⟩

/-- C9: omitting an optional field whose declared default satisfies its
constraints validates exactly like supplying that default explicitly —
stated for `is_operational = True` (station), `is_verified = False`
(contact) and `mission_status = "planned"` (mission); in particular a
successful validation yields the same Ok instance. -/
theorem c9_default_idempotence :
    (∀ r : RawStation,
      validateStation { r with is_operational := none } =
      validateStation { r with is_operational := some (RawValue.bool true) }) ∧
    (∀ r : RawContact,
      validateContact { r with is_verified := none } =
      validateContact { r with is_verified := some (RawValue.bool false) }) ∧
    (∀ r : RawMission,
      validateMission { r with mission_status := none } =
      validateMission { r with mission_status := some (RawValue.str "planned") }) := by
  refine ⟨fun r => ?_, fun r => ?_, fun r => ?_⟩
  · have h : stationFields { r with is_operational := none } =
        stationFields { r with is_operational := some (RawValue.bool true) } := by
      simp [stationFields, vStationId, vStationName, vCrewSize, vPowerLevel,
        vOxygenLevel, vLastMaintenance, vIsOperational, vStationNotes,
        checkField, coerceBool]
    unfold validateStation
    rw [h]
  · have h : contactFields { r with is_verified := none } =
        contactFields { r with is_verified := some (RawValue.bool false) } := by
      simp [contactFields, vContactId, vContactTimestamp, vLocation,
        vContactType, vSignalStrength, vDurationMinutes, vWitnessCount,
        vMessageReceived, vIsVerified, checkField, coerceBool]
    unfold validateContact
    rw [h]
  · have h : missionFields { r with mission_status := none } =
        missionFields { r with mission_status := some (RawValue.str "planned") } := by
      simp [missionFields, vMissionId, vMissionName, vDestination,
        vLaunchDate, vDurationDays, vMissionStatus, vBudgetMillions,
        checkField, coerceStr]
    unfold validateMission
    rw [h]

/-- C4 counterexample: `rawMissionC4x` satisfies every premise of the
claim — all fields validate, the crew contains a commander, all
members are active, the mission lasts more than 365 days and fewer
than half of the crew (1 of 3) is experienced — yet validation reports
the mission-id invariant violation, not the proportional-experience
one, because its mission id does not start with "M" and that invariant
is declared first. -/
theorem c4_counterexample :
    missionFields rawMissionC4x = Except.ok missionC4x ∧
    (missionC4x.crew.any fun member =>
      decide (member.rank = Rank.captain) || decide (member.rank = Rank.commander)) = true ∧
    (missionC4x.crew.all fun member => member.is_active) = true ∧
    missionC4x.duration_days > 365 ∧
    (experiencedCount missionC4x.crew : Rat) / (missionC4x.crew.length : Rat) < 0.5 ∧
    validateMission rawMissionC4x =
      Report.errors [("", "Mission ID must start with \"M\"")] := by
  refine ⟨by decide, by decide, by decide, by decide, ?_, ?_⟩
  · norm_num [experiencedCount, missionC4x, missionC4, sarah, john, mike, List.filter]
  · have hok : missionFields rawMissionC4x = Except.ok missionC4x := by decide
    have e1 : strStartsWith missionC4x.mission_id "M" = false := by decide
    simp [validateMission, hok, runInvariants, missionInvariants, e1]

/-- C4 (amended): a mission record whose fields all validate, whose
mission id starts with "M", whose crew contains a captain or
commander and is all active, with more than 365 days of duration and
an experienced fraction strictly below one half, fails with the single
proportional-experience invariant violation. -/
theorem c4_amended_long_mission_needs_experience (r : RawMission) (m : SpaceMission)
    (hok : missionFields r = Except.ok m)
    (h1 : strStartsWith m.mission_id "M" = true)
    (h2 : (m.crew.any fun member =>
      decide (member.rank = Rank.captain) || decide (member.rank = Rank.commander)) = true)
    (h3 : (m.crew.all fun member => member.is_active) = true)
    (h4 : m.duration_days > 365)
    (h5 : (experiencedCount m.crew : Rat) / (m.crew.length : Rat) < 0.5) :
    validateMission r =
      Report.errors [("", "Long missions (> 365 days) need 50% experienced crew (5+ years)")] := by
  have e3 : (!(decide (m.duration_days > 365) &&
      decide ((experiencedCount m.crew : Rat) / (m.crew.length : Rat) < 0.5))) = false := by
    simp [h4, h5]
  simp [validateMission, hok, runInvariants, missionInvariants, h1, h2, e3]

/-- C4 witness: the 900-day demo mission of src/ex2 with 1 experienced
crew member of 3 is rejected with exactly the proportional-experience
message. -/
theorem c4_amended_long_mission_needs_experience_witness :
    missionFields rawMissionC4 = Except.ok missionC4 ∧
    missionC4.duration_days > 365 ∧
    (experiencedCount missionC4.crew : Rat) / (missionC4.crew.length : Rat) < 0.5 ∧
    validateMission rawMissionC4 =
      Report.errors [("", "Long missions (> 365 days) need 50% experienced crew (5+ years)")] :=
  ⟨by decide, by decide,
   by norm_num [experiencedCount, missionC4, sarah, john, mike, List.filter],
   c4_amended_long_mission_needs_experience rawMissionC4 missionC4 (by decide) (by decide)
     (by decide) (by decide) (by decide)
     (by norm_num [experiencedCount, missionC4, sarah, john, mike, List.filter])⟩

/-- C10 counterexample: `rawMissionC10x` satisfies every premise of the
claim — all fields validate, the crew contains a commander, all
members are active, the mission lasts more than 365 days and exactly
half of the crew (2 of 4) is experienced — yet validation does not
succeed: its mission id does not start with "M", so the id-prefix
invariant rejects it.  The claim misses the id-prefix premise. -/
theorem c10_counterexample :
    missionFields rawMissionC10x = Except.ok missionC10x ∧
    (missionC10x.crew.any fun member =>
      decide (member.rank = Rank.captain) || decide (member.rank = Rank.commander)) = true ∧
    (missionC10x.crew.all fun member => member.is_active) = true ∧
    missionC10x.duration_days > 365 ∧
    (experiencedCount missionC10x.crew : Rat) / (missionC10x.crew.length : Rat) = 0.5 ∧
    validateMission rawMissionC10x =
      Report.errors [("", "Mission ID must start with \"M\"")] := by
  refine ⟨by decide, by decide, by decide, by decide, ?_, ?_⟩
  · norm_num [experiencedCount, missionC10x, missionC10, missionC4,
      sarah, john, mike, bob, List.filter]
  · have hok : missionFields rawMissionC10x = Except.ok missionC10x := by decide
    have e1 : strStartsWith missionC10x.mission_id "M" = false := by decide
    simp [validateMission, hok, runInvariants, missionInvariants, e1]

/-- C10 (amended): a mission record whose fields all validate, whose
mission id starts with "M", whose crew contains a captain or
commander and is all active, with more than 365 days of duration and
an experienced fraction of exactly one half, validates successfully:
the proportional-experience invariant fails only strictly below 0.5,
so the exact 50% boundary is accepted. -/
theorem c10_amended_half_experienced_boundary_ok (r : RawMission) (m : SpaceMission)
    (hok : missionFields r = Except.ok m)
    (h1 : strStartsWith m.mission_id "M" = true)
    (h2 : (m.crew.any fun member =>
      decide (member.rank = Rank.captain) || decide (member.rank = Rank.commander)) = true)
    (h3 : (m.crew.all fun member => member.is_active) = true)
    (h4 : m.duration_days > 365)
    (h5 : (experiencedCount m.crew : Rat) / (m.crew.length : Rat) = 0.5) :
    validateMission r = Report.ok m := by
  have hnl : ¬((experiencedCount m.crew : Rat) / (m.crew.length : Rat) < 0.5) := by
    rw [h5]
    exact lt_irrefl (0.5 : Rat)
  have e3 : (!(decide (m.duration_days > 365) &&
      decide ((experiencedCount m.crew : Rat) / (m.crew.length : Rat) < 0.5))) = true := by
    simp [hnl]
  simp [validateMission, hok, runInvariants, missionInvariants, h1, h2, e3, h3]

/-- C10 witness: the same 900-day mission with a 4-member crew of whom
exactly 2 are experienced (a commander and an all-active crew) is
accepted. -/
theorem c10_amended_half_experienced_boundary_ok_witness :
    missionFields rawMissionC10 = Except.ok missionC10 ∧
    missionC10.duration_days > 365 ∧
    (experiencedCount missionC10.crew : Rat) / (missionC10.crew.length : Rat) = 0.5 ∧
    validateMission rawMissionC10 = Report.ok missionC10 :=
  ⟨by decide, by decide,
   by norm_num [experiencedCount, missionC10, missionC4, sarah, john, mike, bob, List.filter],
   c10_amended_half_experienced_boundary_ok rawMissionC10 missionC10 (by decide) (by decide)
     (by decide) (by decide) (by decide)
     (by norm_num [experiencedCount, missionC10, missionC4, sarah, john, mike, bob, List.filter])⟩

/-- C7: whenever a nested crew element fails one of its own field
constraints, every one of the child's errors appears in the parent
mission's error report with the indexed-and-dotted path prefixed by
the collection field name and the element's zero-based index — for
every mission, every index and every child error entry; and in the
claim's instance (all other fields and elements valid, the 2nd crew
member failing only its `age` constraint) the report is exactly
`[("crew[1].age", message)]`. -/
theorem c7_nested_error_path :
    (∀ (r : RawMission) (xs : List RawCrewMember) (i : Nat) (e : Err)
        (hcrew : r.crew = some xs) (hi : i < xs.length),
      e ∈ errsOfL (crewMemberFields (xs.get ⟨i, hi⟩)) →
      ∃ es, validateMission r = Report.errors es ∧
        ("crew[" ++ toString i ++ "]." ++ e.1, e.2) ∈ es) ∧
    (∀ (r : RawMission) (a b : RawCrewMember) (rest : List RawCrewMember) (msg : String),
      r.crew = some (a :: b :: rest) →
      (a :: b :: rest).length ≤ 12 →
      (∃ v, crewMemberFields a = Except.ok v) →
      crewMemberFields b = Except.error [("age", msg)] →
      (∀ c ∈ rest, ∃ v, crewMemberFields c = Except.ok v) →
      isBad (vMissionId r) = false → isBad (vMissionName r) = false →
      isBad (vDestination r) = false → isBad (vLaunchDate r) = false →
      isBad (vDurationDays r) = false → isBad (vMissionStatus r) = false →
      isBad (vBudgetMillions r) = false →
      validateMission r = Report.errors [("crew[1].age", msg)]) := by
  constructor
  · intro r xs i e hcrew hi he
    have hnone : okOf (crewMemberFields (xs.get ⟨i, hi⟩)) = none :=
      okOf_crewMemberFields_eq_none he
    have hcv : crewValues xs = none := crewValues_eq_none hi hnone
    have hpe : ("crew[" ++ toString i ++ "]." ++ e.1, e.2) ∈ prefErrsFrom 0 xs := by
      have h0 := mem_prefErrsFrom xs 0 i hi he
      rwa [Nat.zero_add] at h0
    have hvcmem : ("crew[" ++ toString i ++ "]." ++ e.1, e.2) ∈ errsOfL (vCrew r.crew) := by
      rw [hcrew]
      simp only [vCrew, hcv, errsOfL]
      exact List.mem_append_right _ hpe
    have hmem : ("crew[" ++ toString i ++ "]." ++ e.1, e.2) ∈ missionFieldErrors r := by
      rw [missionFieldErrors]
      exact List.mem_append_left _ (List.mem_append_left _ (List.mem_append_right _ hvcmem))
    have hne : missionFieldErrors r ≠ [] := List.ne_nil_of_mem hmem
    rcases missionFields_cases r with ⟨hnil, -⟩ | herr
    · exact absurd hnil hne
    · exact ⟨missionFieldErrors r, by simp [validateMission, herr], hmem⟩
  · intro r a b rest msg hcrew hlen ha hb hrest h1 h2 h3 h4 h5 h7 h8
    obtain ⟨va, hva⟩ := ha
    have hcv : crewValues (a :: b :: rest) = none := by
      simp [crewValues, okOf, hva, hb]
    have hpmb : prefixedMemberErrors 1 b = [("crew[1].age", msg)] := by
      unfold prefixedMemberErrors
      rw [hb]
      rfl
    have hr10 : rest.length ≤ 10 := by
      simp only [List.length_cons] at hlen
      omega
    have hvc : vCrew r.crew = Except.error [("crew[1].age", msg)] := by
      rw [hcrew]
      simp [vCrew, hcv, prefErrsFrom, hpmb,
        prefixedMemberErrors_of_ok ⟨va, hva⟩, prefErrsFrom_of_ok hrest, hr10]
    have hfe : missionFieldErrors r = [("crew[1].age", msg)] := by
      rw [missionFieldErrors, errsOf_of_not_bad h1, errsOf_of_not_bad h2,
        errsOf_of_not_bad h3, errsOf_of_not_bad h4, errsOf_of_not_bad h5,
        errsOf_of_not_bad h7, errsOf_of_not_bad h8, hvc]
      rfl
    rcases missionFields_cases r with ⟨hnil, -⟩ | herr
    · rw [hfe] at hnil
      cases hnil
    · rw [hfe] at herr
      simp [validateMission, herr]

/-- C7 witness: for a mission whose 2nd crew member has age 999 and
all other fields and members valid, the general part places the entry
at path `crew[1].age` in the report, and the exact-instance part shows
the report is precisely that single entry. -/
theorem c7_nested_error_path_witness :
    (∃ es, validateMission rawMissionC7 = Report.errors es ∧
      ("crew[" ++ toString (1 : Nat) ++ "]." ++ "age", "value out of range") ∈ es) ∧
    validateMission rawMissionC7 = Report.errors [("crew[1].age", "value out of range")] :=
  ⟨c7_nested_error_path.1 rawMissionC7
    [rawSarah, { rawJohn with age := some (RawValue.int 999) }, rawMike] 1
    ("age", "value out of range") rfl (by decide) (by decide),
   c7_nested_error_path.2 rawMissionC7 rawSarah
    { rawJohn with age := some (RawValue.int 999) } [rawMike] "value out of range"
    rfl (by decide) ⟨sarah, by decide⟩ (by decide)
    (fun c hc => by
      rw [List.mem_singleton] at hc
      subst hc
      exact ⟨mike, by decide⟩)
    (by decide) (by decide) (by decide) (by decide) (by decide) (by decide) (by decide)⟩

end Spec2Proof
